import Mathlib

/-!
# HTC Vive headset IMU driver (`src/vive-headset-imu.c`)

A shallow embedding of the sequence resolver (`oldest_sequence_index`,
`vive_headset_imu_decode_message`), of the acquisition loop
(`vive_headset_imu_thread`) and of the start-up path
(`vive_headset_imu_get_config`, `vive_headset_imu_start`).

Conventions.
* A `uint8_t`, `__le16`, `__le32` value is a `Nat` below `2^8`, `2^16`, `2^32`;
  a C `int` expression is an `Int`, and the cast `(uint8_t)e` is `u8 e`.
* The calibration vectors are never used in arithmetic by this file of the
  driver (the decoded sample is discarded), so their components are kept as
  rationals.
* The samples that reach the conversion code of the decoder (lines 142-152)
  are recorded, in order, in a trace: these are the samples the driver
  accepts as new.
-/

namespace Vive

/-! ## Machine integers -/

/-- The C cast `(uint8_t)e` of an `int` expression `e`. -/
def u8 (e : Int) : Nat := (e % 256).toNat

/-- The C cast `(int16_t)v` of a 16-bit unsigned value `v`. -/
def int16_t (v : Nat) : Int := if v % 65536 < 32768 then (v % 65536 : Nat) else (v % 65536 : Nat) - 65536

/-! ## Data model -/

/-- The type `vec3` of `math.h`: three components. -/
structure vec3 where
  x : ℚ
  y : ℚ
  z : ℚ
deriving DecidableEq, Repr

/-- A document node of json-glib (`JsonNode`). -/
inductive JsonNode where
  | null
  | bool (b : Bool)
  | number (q : ℚ)
  | string (s : String)
  | array (items : List JsonNode)
  | object (members : List (String × JsonNode))

/-- The wire sample `struct vive_headset_imu_sample`: the multi-byte fields
hold the value already read in little-endian order. -/
structure vive_headset_imu_sample where
  acc : List Nat
  gyro : List Nat
  time : Nat
  seq : Nat
deriving DecidableEq, Repr

/-- The periodic report `struct vive_headset_imu_report`: a tag and three
sample slots. -/
structure vive_headset_imu_report where
  id : Nat
  sample0 : vive_headset_imu_sample
  sample1 : vive_headset_imu_sample
  sample2 : vive_headset_imu_sample
deriving DecidableEq, Repr

/-- The slot `report->sample + i`, for `i` in `0..2`. -/
def vive_headset_imu_report.sample (report : vive_headset_imu_report) (i : Nat) :
    vive_headset_imu_sample :=
  match i with
  | 0 => report.sample0
  | 1 => report.sample1
  | _ => report.sample2

/-- The three slot sequence numbers of a report, slot 0 first. -/
def vive_headset_imu_report.seqs (report : vive_headset_imu_report) : List Nat :=
  [report.sample0.seq, report.sample1.seq, report.sample2.seq]

/-- The host-order sample `struct raw_imu_sample` filled by the decoder. -/
structure raw_imu_sample where
  acc : List Int
  gyro : List Int
  time : Nat
deriving DecidableEq, Repr

/-- The private state `struct _OuvrtViveHeadsetIMUPrivate`. The parsed
document `config` is kept by `vive_headset_imu_get_config` below. -/
structure Priv where
  config : Option JsonNode
  sequence : Nat
  acc_bias : vec3
  acc_scale : vec3
  gyro_bias : vec3
  gyro_scale : vec3

/-- One sample accepted as new by the decoder: the slot it was read from, its
sequence number and its converted readings. -/
structure Accepted where
  slot : Nat
  seq : Nat
  raw : raw_imu_sample
deriving DecidableEq, Repr

/-! ## Sequence resolver -/

/-- The function `oldest_sequence_index` (lines 97-105). -/
def oldest_sequence_index (a b c : Nat) : Nat :=
  if a = u8 ((b : Int) + 2) then 1
  else if b = u8 ((c : Int) + 2) then 2
  else 0

/-- The test of lines 137-139: the sample was already seen. -/
def already_seen (seq last_seq : Nat) : Bool :=
  decide (seq = last_seq) ||
  decide (seq = u8 ((last_seq : Int) - 1)) ||
  decide (seq = u8 ((last_seq : Int) - 2))

/-- The conversion of lines 142-148. -/
def to_raw (sample : vive_headset_imu_sample) : raw_imu_sample :=
  { acc := [int16_t (sample.acc.getD 0 0), int16_t (sample.acc.getD 1 0),
            int16_t (sample.acc.getD 2 0)],
    gyro := [int16_t (sample.gyro.getD 0 0), int16_t (sample.gyro.getD 1 0),
             int16_t (sample.gyro.getD 2 0)],
    time := sample.time }

/-- The state threaded through the loop of the decoder: the private state and
the trace of accepted samples. -/
structure DecodeState where
  priv : Priv
  accepted : List Accepted

/-- The loop `for (j = 3; j; --j, i = (i + 1) % 3)` of lines 129-153, by
recursion on `j`. The local `last_seq` is read once, before the loop. -/
def decode_loop (report : vive_headset_imu_report) (last_seq : Nat) :
    Nat → Nat → DecodeState → DecodeState
  | 0, _, st => st
  | j + 1, i, st =>
    let sample := report.sample i
    let seq := sample.seq
    if already_seen seq last_seq then
      decode_loop report last_seq j ((i + 1) % 3) st
    else
      decode_loop report last_seq j ((i + 1) % 3)
        { priv := { st.priv with sequence := seq },
          accepted := st.accepted ++ [{ slot := i, seq := seq, raw := to_raw sample }] }

/-- The function `vive_headset_imu_decode_message` (lines 110-154). -/
def vive_headset_imu_decode_message (priv : Priv) (report : vive_headset_imu_report) :
    DecodeState :=
  let last_seq := priv.sequence
  let i := oldest_sequence_index report.sample0.seq report.sample1.seq report.sample2.seq
  decode_loop report last_seq 3 i { priv := priv, accepted := [] }

/-! ## Acquisition loop -/

/-- The readiness flag `POLLIN` of `<poll.h>`. -/
def POLLIN : Nat := 0x001

/-- The readiness flag `POLLERR` of `<poll.h>`. -/
def POLLERR : Nat := 0x008

/-- The readiness flag `POLLHUP` of `<poll.h>`. -/
def POLLHUP : Nat := 0x010

/-- The readiness flag `POLLNVAL` of `<poll.h>`. -/
def POLLNVAL : Nat := 0x020

/-- A 16-bit little-endian field of the buffer at offset `off`. -/
def le16 (buf : List Nat) (off : Nat) : Nat :=
  buf.getD off 0 + 256 * buf.getD (off + 1) 0

/-- A 32-bit little-endian field of the buffer at offset `off`. -/
def le32 (buf : List Nat) (off : Nat) : Nat :=
  buf.getD off 0 + 256 * buf.getD (off + 1) 0 + 65536 * buf.getD (off + 2) 0 +
    16777216 * buf.getD (off + 3) 0

/-- Modelled from the spec: the layout of `struct vive_headset_imu_sample`
(declared in `vive-hid-reports.h`, which is not among the sources): three
16-bit accelerometer axes, three 16-bit gyroscope axes, a 32-bit timestamp and
an 8-bit sequence number, 17 bytes in all. -/
def sample_of_buf (buf : List Nat) (off : Nat) : vive_headset_imu_sample :=
  { acc := [le16 buf off, le16 buf (off + 2), le16 buf (off + 4)],
    gyro := [le16 buf (off + 6), le16 buf (off + 8), le16 buf (off + 10)],
    time := le32 buf (off + 12),
    seq := buf.getD (off + 16) 0 }

/-- Modelled from the spec: the layout of `struct vive_headset_imu_report`
(declared in `vive-hid-reports.h`, which is not among the sources): byte 0 is
the tag, followed by the three sample records, 52 bytes in all. This is the
view `report = buf` of line 113. -/
def report_of_buf (buf : List Nat) : vive_headset_imu_report :=
  { id := buf.getD 0 0,
    sample0 := sample_of_buf buf 1,
    sample1 := sample_of_buf buf 18,
    sample2 := sample_of_buf buf 35 }

/-- The states of the acquisition loop. -/
inductive LoopState where
  | Running
  | Stopped
deriving DecidableEq, Repr

/-- The path one iteration of the loop takes. -/
inductive Outcome where
  | not_active
  | poll_failure
  | hangup
  | poll_timeout
  | read_error
  | invalid_report
  | decoded
deriving DecidableEq, Repr

/-- What the environment answers during one iteration: the flag `dev->active`
seen by the loop test, the result of `poll` and the `revents` it stores, the
result of `read` and the contents of `buf` after it. The answers of `read`
are consulted only when the iteration reaches line 245. -/
structure Iteration where
  active : Bool
  poll_ret : Int
  revents : Nat
  read_ret : Int
  buf : List Nat
deriving DecidableEq, Repr

/-- The result of one iteration. -/
structure IterationResult where
  priv : Priv
  state : LoopState
  outcome : Outcome
  did_read : Bool
  accepted : List Accepted

/-- One evaluation of the loop test and of the loop body of
`vive_headset_imu_thread` (lines 226-257). `REPORT_ID` is the constant
`VIVE_HEADSET_IMU_REPORT_ID` of `vive-hid-reports.h`. -/
def thread_iteration (REPORT_ID : Nat) (priv : Priv) (env : Iteration) : IterationResult :=
  if env.active = false then
    { priv := priv, state := .Stopped, outcome := .not_active, did_read := false, accepted := [] }
  else
    let fds_events := POLLIN
    let fds_revents := if env.poll_ret = -1 then 0 else env.revents
    let ret := env.poll_ret
    if ret = -1 then
      { priv := priv, state := .Running, outcome := .poll_failure, did_read := false,
        accepted := [] }
    else if fds_events &&& (POLLERR ||| POLLHUP ||| POLLNVAL) ≠ 0 then
      { priv := priv, state := .Stopped, outcome := .hangup, did_read := false, accepted := [] }
    else if fds_revents &&& POLLIN = 0 then
      { priv := priv, state := .Running, outcome := .poll_timeout, did_read := false,
        accepted := [] }
    else
      let ret := env.read_ret
      if ret = -1 then
        { priv := priv, state := .Running, outcome := .read_error, did_read := true,
          accepted := [] }
      else if ret ≠ 52 ∨ env.buf.getD 0 0 ≠ REPORT_ID then
        { priv := priv, state := .Running, outcome := .invalid_report, did_read := true,
          accepted := [] }
      else
        let d := vive_headset_imu_decode_message priv (report_of_buf env.buf)
        { priv := d.priv, state := .Running, outcome := .decoded, did_read := true,
          accepted := d.accepted }

/-- The result of running the loop against a finite list of answers. -/
structure ThreadResult where
  priv : Priv
  state : LoopState
  accepted : List Accepted

/-- The loop of `vive_headset_imu_thread` run against the answers of the
environment, one entry per iteration: it ends `Stopped` when the loop is left,
and `Running` when the answers are used up with the loop still going. -/
def vive_headset_imu_thread (REPORT_ID : Nat) : Priv → List Iteration → ThreadResult
  | priv, [] => { priv := priv, state := .Running, accepted := [] }
  | priv, env :: rest =>
    let r := thread_iteration REPORT_ID priv env
    match r.state with
    | .Stopped => { priv := r.priv, state := .Stopped, accepted := r.accepted }
    | .Running =>
      let t := vive_headset_imu_thread REPORT_ID r.priv rest
      { priv := t.priv, state := t.state, accepted := r.accepted ++ t.accepted }

/-! ## Start-up -/

/-- Modelled from the spec: the member reader `json_object_get_vec3_member` of
`json.c`, which is not among the sources: a member that is a 3-element numeric
array is stored in the vector; for any other document the vector is left as it
was. -/
def json_object_get_vec3_member (object : Option (List (String × JsonNode)))
    (member : String) (out : vec3) : vec3 :=
  match object.bind (fun o => o.lookup member) with
  | some (.array [.number x, .number y, .number z]) => { x := x, y := y, z := z }
  | _ => out

/-- The accessor `json_node_get_object` of json-glib. -/
def json_node_get_object : JsonNode → Option (List (String × JsonNode))
  | .object members => some members
  | _ => none

/-- The member is present and is a 3-element numeric array. -/
def is_vec3_member (node : JsonNode) (member : String) : Bool :=
  match (json_node_get_object node).bind (fun o => o.lookup member) with
  | some (.array [.number _, .number _, .number _]) => true
  | _ => false

/-- The function `vive_headset_imu_get_config` (lines 39-64). `config_json`
is the result of `ouvrt_vive_get_config` (`none` for `NULL`),
`json_from_string` the parser of json-glib (`none` for `NULL`) and `get_vec3`
the member reader of `json.c`. -/
def vive_headset_imu_get_config (json_from_string : String → Option JsonNode)
    (get_vec3 : Option (List (String × JsonNode)) → String → vec3 → vec3)
    (config_json : Option String) (priv : Priv) : Int × Priv :=
  match config_json with
  | none => (-1, priv)
  | some text =>
    let priv := { priv with config := json_from_string text }
    match priv.config with
    | none => (-1, priv)
    | some node =>
      let object := json_node_get_object node
      let priv := { priv with acc_bias := get_vec3 object "acc_bias" priv.acc_bias }
      let priv := { priv with acc_scale := get_vec3 object "acc_scale" priv.acc_scale }
      let priv := { priv with gyro_bias := get_vec3 object "gyro_bias" priv.gyro_bias }
      let priv := { priv with gyro_scale := get_vec3 object "gyro_scale" priv.gyro_scale }
      (0, priv)

/-- The function `vive_headset_get_firmware_version` (lines 69-95);
`get_ret` is the result of `hid_get_feature_report`. -/
def vive_headset_get_firmware_version (get_ret : Int) : Int :=
  if get_ret < 0 then get_ret else 0

/-- The function `vive_headset_enable_lighthouse` (lines 156-172): the result
and the feature reports sent; `send1` and `send2` are the results of the two
calls of `hid_send_feature_report`. -/
def vive_headset_enable_lighthouse (send1 send2 : Int) : Int × List (List Nat) :=
  let buf := [0x04, 0, 0, 0, 0]
  let ret := send1
  if ret < 0 then (ret, [buf])
  else
    let buf1 := buf.set 0 0x07
    let buf2 := buf1.set 1 0x02
    (send2, [buf, buf2])

/-- What the environment answers during start-up. -/
structure StartEnv where
  fd : Int
  open_ret : Int
  get_feature_report_ret : Int
  config_json : Option String
  json_from_string : String → Option JsonNode
  send_feature_report_ret1 : Int
  send_feature_report_ret2 : Int

/-- The result of start-up: the value returned, the private state, the
descriptor and the feature reports sent to enable the Lighthouse receiver. -/
structure StartResult where
  ret : Int
  priv : Priv
  fd : Int
  sent : List (List Nat)

/-- The function `vive_headset_imu_start` (lines 178-214). -/
def vive_headset_imu_start
    (get_vec3 : Option (List (String × JsonNode)) → String → vec3 → vec3)
    (env : StartEnv) (priv : Priv) : StartResult :=
  let fd := if env.fd = -1 then env.open_ret else env.fd
  if env.fd = -1 ∧ fd = -1 then
    { ret := -1, priv := priv, fd := env.fd, sent := [] }
  else
    let ret := vive_headset_get_firmware_version env.get_feature_report_ret
    if ret < 0 then { ret := ret, priv := priv, fd := fd, sent := [] }
    else
      let c := vive_headset_imu_get_config env.json_from_string get_vec3 env.config_json priv
      if c.1 < 0 then { ret := c.1, priv := c.2, fd := fd, sent := [] }
      else
        let l := vive_headset_enable_lighthouse env.send_feature_report_ret1
          env.send_feature_report_ret2
        if l.1 < 0 then { ret := l.1, priv := c.2, fd := fd, sent := l.2 }
        else { ret := 0, priv := c.2, fd := fd, sent := l.2 }

/-! ## Vocabulary of the statements -/

/-- The sequence number `seq` is one of `last`, `last - 1`, `last - 2`
modulo 256: the staleness window of the cursor `last`. -/
def in_window (seq last : Nat) : Prop :=
  (seq : Int) = last ∨ (seq : Int) = ((last : Int) - 1) % 256 ∨
    (seq : Int) = ((last : Int) - 2) % 256

instance (seq last : Nat) : Decidable (in_window seq last) := by
  unfold in_window
  infer_instance

/-- The three placements of `s`, `s+1`, `s+2` (mod 256) over the slots 0..2
that a round-robin update produces. -/
def round_robin_placements (s : Nat) : List (List Nat) :=
  [[s, (s + 1) % 256, (s + 2) % 256],
   [(s + 2) % 256, s, (s + 1) % 256],
   [(s + 1) % 256, (s + 2) % 256, s]]

/-- The accepted-sample record of slot `i` of a report. -/
def accepted_of (report : vive_headset_imu_report) (i : Nat) : Accepted :=
  { slot := i, seq := (report.sample i).seq, raw := to_raw (report.sample i) }

/-- The resolver as the specification words it: visit the slots `i`,
`(i+1) mod 3`, `(i+2) mod 3` from the oldest index `i`, once each, and keep
every slot whose sequence number is outside the staleness window of the entry
cursor `last`. -/
def resolve_spec (report : vive_headset_imu_report) (last : Nat) : List Accepted :=
  let i := oldest_sequence_index report.sample0.seq report.sample1.seq report.sample2.seq
  ([i, (i + 1) % 3, (i + 2) % 3].filter (fun n => ¬ in_window (report.sample n).seq last)).map
    (accepted_of report)

/-- The slots visited by `j` iterations of the decoder loop entered at
index `i`. -/
def visit_order : Nat → Nat → List Nat
  | 0, _ => []
  | j + 1, i => i :: visit_order j ((i + 1) % 3)

/-- The slots among `slots` that the decoder accepts at entry cursor `last`. -/
def kept (report : vive_headset_imu_report) (last : Nat) (slots : List Nat) : List Accepted :=
  (slots.filter (fun n => ¬ in_window (report.sample n).seq last)).map (accepted_of report)

/-- The cursor after accepting `new` from cursor `last`: the sequence number
of the last element, or `last` when there is none. -/
def cursor_after (last : Nat) (new : List Accepted) : Nat :=
  match new.getLast? with
  | some e => e.seq
  | none => last

/-- A report with the given slot sequence numbers and all readings zero. -/
def report_of_seqs (a b c : Nat) : vive_headset_imu_report :=
  { id := 0x20,
    sample0 := { acc := [0, 0, 0], gyro := [0, 0, 0], time := 0, seq := a },
    sample1 := { acc := [0, 0, 0], gyro := [0, 0, 0], time := 0, seq := b },
    sample2 := { acc := [0, 0, 0], gyro := [0, 0, 0], time := 0, seq := c } }

/-- A private state with the given cursor and unit calibration. -/
def priv_of_sequence (last : Nat) : Priv :=
  { config := none, sequence := last,
    acc_bias := ⟨0, 0, 0⟩, acc_scale := ⟨1, 1, 1⟩,
    gyro_bias := ⟨0, 0, 0⟩, gyro_scale := ⟨1, 1, 1⟩ }

/-- The same report with `k` added (mod 256) to the three sequence numbers. -/
def shift_report (k : Nat) (report : vive_headset_imu_report) : vive_headset_imu_report :=
  { report with
    sample0 := { report.sample0 with seq := (report.sample0.seq + k) % 256 },
    sample1 := { report.sample1 with seq := (report.sample1.seq + k) % 256 },
    sample2 := { report.sample2 with seq := (report.sample2.seq + k) % 256 } }

/-- The same accepted sample with `k` added (mod 256) to its sequence number. -/
def shift_accepted (k : Nat) (e : Accepted) : Accepted :=
  { e with seq := (e.seq + k) % 256 }

/-- A 64-byte buffer that starts with `first` and is zero elsewhere. -/
def buf_of_first (first : Nat) : List Nat := first :: List.replicate 63 0

/-- A configuration document that lacks the member `gyro_scale`. -/
def config_without_gyro_scale : JsonNode :=
  .object
    [("acc_bias", .array [.number 1, .number 2, .number 3]),
     ("acc_scale", .array [.number 4, .number 5, .number 6]),
     ("gyro_bias", .array [.number 7, .number 8, .number 9])]

/-- A start-up in which the device is opened, the firmware report is read, the
configuration text parses to `config_without_gyro_scale` and both Lighthouse
reports are sent. -/
def start_env_without_gyro_scale : StartEnv :=
  { fd := -1, open_ret := 3, get_feature_report_ret := 64,
    config_json := some "config",
    json_from_string := fun text =>
      if text = "config" then some config_without_gyro_scale else none,
    send_feature_report_ret1 := 5, send_feature_report_ret2 := 5 }

/-! ## Auxiliary facts -/

theorem u8_add_two (b : Nat) : u8 ((b : Int) + 2) = (b + 2) % 256 := by
  unfold u8
  omega

theorem u8_sub_one (l : Nat) : u8 ((l : Int) - 1) = (l + 255) % 256 := by
  unfold u8
  omega

theorem u8_sub_two (l : Nat) : u8 ((l : Int) - 2) = (l + 254) % 256 := by
  unfold u8
  omega

theorem already_seen_iff (seq last : Nat) :
    already_seen seq last = true ↔ in_window seq last := by
  unfold already_seen in_window u8
  simp only [Bool.or_eq_true, decide_eq_true_eq]
  omega

theorem already_seen_eq_false_iff (seq last : Nat) :
    already_seen seq last = false ↔ ¬ in_window seq last := by
  rw [← already_seen_iff]
  simp

theorem oldest_sequence_index_lt (a b c : Nat) : oldest_sequence_index a b c < 3 := by
  unfold oldest_sequence_index
  split_ifs <;> omega

theorem kept_cons (report : vive_headset_imu_report) (last n : Nat) (slots : List Nat) :
    kept report last (n :: slots) =
      if already_seen (report.sample n).seq last = true then kept report last slots
      else accepted_of report n :: kept report last slots := by
  unfold kept
  by_cases h : already_seen (report.sample n).seq last = true
  · have h2 := (already_seen_iff _ _).1 h
    simp [h, h2]
  · have h2 : ¬ in_window (report.sample n).seq last := fun h3 => h ((already_seen_iff _ _).2 h3)
    simp [h, h2]

theorem cursor_after_append_singleton (last : Nat) (l : List Accepted) (e : Accepted) :
    cursor_after last (l ++ [e]) = e.seq := by
  simp [cursor_after]

/-- The loop of the decoder appends the kept slots of its walk to the trace. -/
theorem decode_loop_accepted (report : vive_headset_imu_report) (last : Nat) :
    ∀ (j i : Nat) (st : DecodeState),
      (decode_loop report last j i st).accepted =
        st.accepted ++ kept report last (visit_order j i) := by
  intro j
  induction j with
  | zero => intro i st; simp [decode_loop, visit_order, kept]
  | succ j ih =>
    intro i st
    rw [decode_loop, visit_order, kept_cons]
    by_cases h : already_seen (report.sample i).seq last = true
    · rw [if_pos h, if_pos h]
      exact ih _ _
    · rw [if_neg h, if_neg h, ih]
      simp [accepted_of]

/-- The loop of the decoder changes only the cursor, which ends at the
sequence number of the last sample appended to the trace. -/
theorem decode_loop_priv (report : vive_headset_imu_report) (last : Nat) :
    ∀ (j i : Nat) (st : DecodeState),
      (decode_loop report last j i st).priv =
        { st.priv with
          sequence := match (kept report last (visit_order j i)).getLast? with
            | some e => e.seq
            | none => st.priv.sequence } := by
  intro j
  induction j with
  | zero => intro i st; simp [decode_loop, visit_order, kept]
  | succ j ih =>
    intro i st
    rw [decode_loop, visit_order, kept_cons]
    by_cases h : already_seen (report.sample i).seq last = true
    · rw [if_pos h, if_pos h]
      exact ih _ _
    · rw [if_neg h, if_neg h, ih]
      cases hk : kept report last (visit_order j ((i + 1) % 3)) with
      | nil => simp [accepted_of]
      | cons a l =>
        have hl : (a :: l).getLast? = some ((a :: l).getLast (by simp)) :=
          List.getLast?_eq_getLast _ (by simp)
        simp [List.getLast?_cons_cons, hl]

theorem visit_order_three (i : Nat) :
    visit_order 3 i = [i, (i + 1) % 3, (i + 2) % 3] := by
  have h : ((i + 1) % 3 + 1) % 3 = (i + 2) % 3 := by omega
  simp [visit_order, h]

/-- The trace of the decoder is the filtered walk of `resolve_spec`. -/
theorem decode_accepted (priv : Priv) (report : vive_headset_imu_report) :
    (vive_headset_imu_decode_message priv report).accepted =
      resolve_spec report priv.sequence := by
  unfold vive_headset_imu_decode_message resolve_spec
  simp only [decode_loop_accepted, List.nil_append, visit_order_three, kept]

/-- The decoder changes only the cursor, which ends at `cursor_after`. -/
theorem decode_priv (priv : Priv) (report : vive_headset_imu_report) :
    (vive_headset_imu_decode_message priv report).priv =
      { priv with
        sequence := cursor_after priv.sequence (resolve_spec report priv.sequence) } := by
  unfold vive_headset_imu_decode_message resolve_spec cursor_after
  simp only [decode_loop_priv, visit_order_three, kept]

theorem sample_zero (report : vive_headset_imu_report) : report.sample 0 = report.sample0 := rfl

theorem sample_one (report : vive_headset_imu_report) : report.sample 1 = report.sample1 := rfl

theorem sample_two (report : vive_headset_imu_report) : report.sample 2 = report.sample2 := rfl

/-- On a round-robin report the walk of the decoder starts at the slot that
holds `s` and meets `s`, `s+1`, `s+2` in that order. -/
theorem round_robin_walk (report : vive_headset_imu_report) (s : Nat)
    (hr : report.seqs ∈ round_robin_placements s) :
    ∃ i, i < 3 ∧
      oldest_sequence_index report.sample0.seq report.sample1.seq report.sample2.seq = i ∧
      report.seqs.getD i 0 = s ∧
      (report.sample i).seq = s ∧
      (report.sample ((i + 1) % 3)).seq = (s + 1) % 256 ∧
      (report.sample ((i + 2) % 3)).seq = (s + 2) % 256 := by
  simp only [round_robin_placements, vive_headset_imu_report.seqs, List.mem_cons,
    List.cons.injEq, and_true, List.mem_singleton, List.not_mem_nil, or_false] at hr
  unfold oldest_sequence_index
  simp only [u8_add_two, vive_headset_imu_report.seqs]
  rcases hr with ⟨h0, h1, h2⟩ | ⟨h0, h1, h2⟩ | ⟨h0, h1, h2⟩
  · refine ⟨0, by omega, ?_, ?_, ?_, ?_, ?_⟩
    · rw [if_neg (by omega), if_neg (by omega)]
    · simpa using h0
    · simpa [sample_zero] using h0
    · simpa [sample_one] using h1
    · simpa [sample_two] using h2
  · refine ⟨1, by omega, ?_, ?_, ?_, ?_, ?_⟩
    · rw [if_pos (by omega)]
    · simpa using h1
    · simpa [sample_one] using h1
    · simpa [sample_two] using h2
    · simpa [sample_zero] using h0
  · refine ⟨2, by omega, ?_, ?_, ?_, ?_, ?_⟩
    · rw [if_neg (by omega), if_pos (by omega)]
    · simpa using h2
    · simpa [sample_two] using h2
    · simpa [sample_zero] using h0
    · simpa [sample_one] using h1

theorem resolve_spec_eq_kept (report : vive_headset_imu_report) (last : Nat) :
    resolve_spec report last =
      kept report last
        [oldest_sequence_index report.sample0.seq report.sample1.seq report.sample2.seq,
         (oldest_sequence_index report.sample0.seq report.sample1.seq report.sample2.seq + 1) % 3,
         (oldest_sequence_index report.sample0.seq report.sample1.seq report.sample2.seq + 2) % 3] :=
  rfl

theorem kept_nil (report : vive_headset_imu_report) (last : Nat) : kept report last [] = [] := rfl

theorem kept_cons_window (report : vive_headset_imu_report) (last n : Nat) (slots : List Nat) :
    kept report last (n :: slots) =
      if in_window (report.sample n).seq last then kept report last slots
      else accepted_of report n :: kept report last slots := by
  rw [kept_cons]
  by_cases h : in_window (report.sample n).seq last
  · rw [if_pos h, if_pos ((already_seen_iff _ _).2 h)]
  · rw [if_neg h, if_neg (fun h2 => h ((already_seen_iff _ _).1 h2))]

theorem shift_report_sample (k : Nat) (report : vive_headset_imu_report) (n : Nat) :
    (shift_report k report).sample n =
      { report.sample n with seq := ((report.sample n).seq + k) % 256 } := by
  unfold vive_headset_imu_report.sample shift_report
  split <;> rfl

theorem sample_seq_lt (report : vive_headset_imu_report)
    (h0 : report.sample0.seq < 256) (h1 : report.sample1.seq < 256)
    (h2 : report.sample2.seq < 256) (n : Nat) : (report.sample n).seq < 256 := by
  unfold vive_headset_imu_report.sample
  split <;> assumption

theorem in_window_shift (a l k : Nat) (ha : a < 256) (hl : l < 256) :
    in_window ((a + k) % 256) ((l + k) % 256) ↔ in_window a l := by
  unfold in_window
  omega

theorem oldest_sequence_index_shift (a b c k : Nat) (ha : a < 256) (hb : b < 256) :
    oldest_sequence_index ((a + k) % 256) ((b + k) % 256) ((c + k) % 256) =
      oldest_sequence_index a b c := by
  unfold oldest_sequence_index
  simp only [u8_add_two]
  split_ifs <;> omega

theorem accepted_of_shift (k : Nat) (report : vive_headset_imu_report) (n : Nat) :
    accepted_of (shift_report k report) n = shift_accepted k (accepted_of report n) := by
  simp only [accepted_of, shift_accepted, shift_report_sample]
  rfl

theorem kept_shift (k : Nat) (report : vive_headset_imu_report) (last : Nat)
    (hseq : ∀ n, (report.sample n).seq < 256) (hl : last < 256) (slots : List Nat) :
    kept (shift_report k report) ((last + k) % 256) slots =
      (kept report last slots).map (shift_accepted k) := by
  induction slots with
  | nil => rfl
  | cons n slots ih =>
    rw [kept_cons_window, kept_cons_window, ih, shift_report_sample]
    by_cases h : in_window (report.sample n).seq last
    · rw [if_pos h, if_pos ((in_window_shift _ _ k (hseq n) hl).2 h)]
    · rw [if_neg h, if_neg (fun h2 => h ((in_window_shift _ _ k (hseq n) hl).1 h2))]
      simp [accepted_of_shift]

theorem cursor_after_shift (k last : Nat) (l : List Accepted) :
    cursor_after ((last + k) % 256) (l.map (shift_accepted k)) =
      (cursor_after last l + k) % 256 := by
  unfold cursor_after
  rw [List.getLast?_map]
  cases l.getLast? <;> simp [shift_accepted]

/-! ## The claims -/

/-- C1: on a report whose slots hold `s`, `s+1`, `s+2` (mod 256) in one of the
three round-robin placements, entered with the cursor at `s+2-k` (mod 256) for
`k` in `0..3`, the decoder accepts exactly the `k` samples numbered
`s+3-k .. s+2` (mod 256), once each and in ascending order, each from the slot
holding that number, and leaves the cursor at `s+2`. -/
theorem C1_round_robin_accepts_new_samples (priv : Priv) (report : vive_headset_imu_report)
    (s k : Nat) (hs : s < 256) (hk : k ≤ 3)
    (hr : report.seqs ∈ round_robin_placements s)
    (hL : priv.sequence = (s + 2 + 256 - k) % 256) :
    ((vive_headset_imu_decode_message priv report).accepted.map Accepted.seq =
        (List.range k).map (fun j => (s + 3 - k + j) % 256)) ∧
    ((vive_headset_imu_decode_message priv report).accepted.map Accepted.slot).Nodup ∧
    (∀ e ∈ (vive_headset_imu_decode_message priv report).accepted,
        e = accepted_of report e.slot) ∧
    (vive_headset_imu_decode_message priv report).priv.sequence = (s + 2) % 256 := by
  obtain ⟨i, hi3, hi, -, h0, h1, h2⟩ := round_robin_walk report s hr
  rw [decode_priv, decode_accepted, resolve_spec_eq_kept, hi]
  simp only [kept_cons_window, kept_nil, h0, h1, h2, hL]
  unfold in_window cursor_after
  have hi1 : (i + 1) % 3 ≠ i := by omega
  have hi2 : (i + 2) % 3 ≠ i := by omega
  have hi12 : (i + 2) % 3 ≠ (i + 1) % 3 := by omega
  interval_cases k
  · rw [if_pos (by omega), if_pos (by omega), if_pos (by omega)]
    simp
  · rw [if_pos (by omega), if_pos (by omega), if_neg (by omega)]
    simp [accepted_of, h2, List.range_succ]
  · rw [if_pos (by omega), if_neg (by omega), if_neg (by omega)]
    simp [accepted_of, h1, h2, hi12.symm, List.range_succ]
  · rw [if_neg (by omega), if_neg (by omega), if_neg (by omega)]
    simp [accepted_of, h0, h1, h2, hi12.symm, hi1.symm, hi2.symm, List.range_succ]
    omega

/-- C1 at the cursor 10 and the slots `[11, 9, 10]`: exactly one new sample,
numbered 11, and the cursor ends at 11. -/
theorem C1_round_robin_accepts_new_samples_witness :
    (9 < 256 ∧ 1 ≤ 3 ∧ (report_of_seqs 11 9 10).seqs ∈ round_robin_placements 9 ∧
      (priv_of_sequence 10).sequence = (9 + 2 + 256 - 1) % 256) ∧
    (vive_headset_imu_decode_message (priv_of_sequence 10) (report_of_seqs 11 9 10)).accepted.map
        Accepted.seq = [11] ∧
    (vive_headset_imu_decode_message (priv_of_sequence 10)
        (report_of_seqs 11 9 10)).priv.sequence = 11 :=
  have h := C1_round_robin_accepts_new_samples (priv_of_sequence 10) (report_of_seqs 11 9 10)
    9 1 (by decide) (by decide) (by decide) (by decide)
  ⟨⟨by decide, by decide, by decide, by decide⟩, h.1, h.2.2.2⟩

/-- C2: whatever the report and the entry cursor, no sample the decoder
accepts carries a sequence number equal to the entry cursor, to the entry
cursor minus one or to the entry cursor minus two (mod 256). -/
theorem C2_stale_samples_never_accepted (priv : Priv) (report : vive_headset_imu_report)
    (e : Accepted) (he : e ∈ (vive_headset_imu_decode_message priv report).accepted) :
    (e.seq : Int) ≠ priv.sequence ∧
    (e.seq : Int) ≠ ((priv.sequence : Int) - 1) % 256 ∧
    (e.seq : Int) ≠ ((priv.sequence : Int) - 2) % 256 := by
  rw [decode_accepted] at he
  simp only [resolve_spec, List.mem_map, List.mem_filter, decide_eq_true_eq] at he
  obtain ⟨n, ⟨-, hn⟩, rfl⟩ := he
  simp only [in_window, not_or] at hn
  exact hn

/-- C2 at the cursor 10 and the slots `[11, 9, 10]`: the accepted sample,
numbered 11, is none of 10, 9, 8. -/
theorem C2_stale_samples_never_accepted_witness :
    accepted_of (report_of_seqs 11 9 10) 0 ∈
      (vive_headset_imu_decode_message (priv_of_sequence 10) (report_of_seqs 11 9 10)).accepted ∧
    ((11 : Nat) : Int) ≠ (10 : Nat) ∧ ((11 : Nat) : Int) ≠ (((10 : Nat) : Int) - 1) % 256 ∧
    ((11 : Nat) : Int) ≠ (((10 : Nat) : Int) - 2) % 256 :=
  ⟨by decide,
   C2_stale_samples_never_accepted (priv_of_sequence 10) (report_of_seqs 11 9 10)
     (accepted_of (report_of_seqs 11 9 10) 0) (by decide)⟩

/-- C4: for each round-robin placement of `s`, `s+1`, `s+2` (mod 256) over the
slots 0..2, `oldest_sequence_index` returns the index `i` of the slot holding
`s`, and the slots `i`, `(i+1) mod 3`, `(i+2) mod 3` carry `s`, `s+1`, `s+2`
in that order; the value is 1 when `seq[0] = seq[1] + 2`, else 2 when
`seq[1] = seq[2] + 2`, else 0, all mod 256. -/
theorem C4_oldest_index_on_round_robin (report : vive_headset_imu_report) (s : Nat)
    (hr : report.seqs ∈ round_robin_placements s) :
    oldest_sequence_index report.sample0.seq report.sample1.seq report.sample2.seq < 3 ∧
    report.seqs.getD
      (oldest_sequence_index report.sample0.seq report.sample1.seq report.sample2.seq) 0 = s ∧
    (report.sample
      (oldest_sequence_index report.sample0.seq report.sample1.seq report.sample2.seq)).seq = s ∧
    (report.sample
      ((oldest_sequence_index report.sample0.seq report.sample1.seq report.sample2.seq + 1)
        % 3)).seq = (s + 1) % 256 ∧
    (report.sample
      ((oldest_sequence_index report.sample0.seq report.sample1.seq report.sample2.seq + 2)
        % 3)).seq = (s + 2) % 256 ∧
    oldest_sequence_index report.sample0.seq report.sample1.seq report.sample2.seq =
      (if report.sample0.seq = (report.sample1.seq + 2) % 256 then 1
       else if report.sample1.seq = (report.sample2.seq + 2) % 256 then 2
       else 0) := by
  obtain ⟨i, hi3, hi, hg, h0, h1, h2⟩ := round_robin_walk report s hr
  refine ⟨?_, ?_, ?_, ?_, ?_, ?_⟩
  · rw [hi]; exact hi3
  · rw [hi]; exact hg
  · rw [hi]; exact h0
  · rw [hi]; exact h1
  · rw [hi]; exact h2
  · simp only [oldest_sequence_index, u8_add_two]

/-- C4 at the slots `[255, 253, 254]`, near the wrap: the oldest index is 1,
and the slots 1, 2, 0 carry 253, 254, 255. -/
theorem C4_oldest_index_on_round_robin_witness :
    (report_of_seqs 255 253 254).seqs ∈ round_robin_placements 253 ∧
    oldest_sequence_index 255 253 254 = 1 ∧
    ((report_of_seqs 255 253 254).sample 1).seq = 253 ∧
    ((report_of_seqs 255 253 254).sample 2).seq = 254 ∧
    ((report_of_seqs 255 253 254).sample 0).seq = 255 :=
  have h := C4_oldest_index_on_round_robin (report_of_seqs 255 253 254) 253 (by decide)
  ⟨by decide, by decide, h.2.2.1, h.2.2.2.1, h.2.2.2.2.1⟩

/-- C6: after the decoder the cursor is the sequence number of the last sample
accepted, in visitation order, when one was accepted, and the entry cursor when
none was; when the three slots are all stale none is accepted and the cursor
keeps its entry value. Nothing but the cursor changes in the private state.
Against the report itself: with `i` the oldest index, the cursor ends at the
sequence number of slot `(i+2) mod 3` when that is outside the window of the
entry cursor, else of slot `(i+1) mod 3` when that is outside, else of slot `i`
when that is outside, else at its entry value; and a sample is accepted exactly
when some slot is outside the window. At cursor 10 and slots `[11, 9, 10]` the
sample of slot 0 is accepted and the cursor ends at 11. -/
theorem C6_cursor_is_last_accepted (priv : Priv) (report : vive_headset_imu_report) :
    (∀ e, (vive_headset_imu_decode_message priv report).accepted.getLast? = some e →
        (vive_headset_imu_decode_message priv report).priv.sequence = e.seq) ∧
    ((vive_headset_imu_decode_message priv report).accepted = [] →
        (vive_headset_imu_decode_message priv report).priv.sequence = priv.sequence) ∧
    ((∀ n, n < 3 → in_window (report.sample n).seq priv.sequence) →
        (vive_headset_imu_decode_message priv report).accepted = [] ∧
        (vive_headset_imu_decode_message priv report).priv.sequence = priv.sequence) ∧
    (vive_headset_imu_decode_message priv report).priv =
      { priv with
        sequence := (vive_headset_imu_decode_message priv report).priv.sequence } ∧
    (vive_headset_imu_decode_message priv report).priv.sequence =
      (if ¬ in_window (report.sample
            ((oldest_sequence_index report.sample0.seq report.sample1.seq report.sample2.seq
              + 2) % 3)).seq priv.sequence then
          (report.sample
            ((oldest_sequence_index report.sample0.seq report.sample1.seq report.sample2.seq
              + 2) % 3)).seq
        else if ¬ in_window (report.sample
            ((oldest_sequence_index report.sample0.seq report.sample1.seq report.sample2.seq
              + 1) % 3)).seq priv.sequence then
          (report.sample
            ((oldest_sequence_index report.sample0.seq report.sample1.seq report.sample2.seq
              + 1) % 3)).seq
        else if ¬ in_window (report.sample
            (oldest_sequence_index report.sample0.seq report.sample1.seq
              report.sample2.seq)).seq priv.sequence then
          (report.sample
            (oldest_sequence_index report.sample0.seq report.sample1.seq
              report.sample2.seq)).seq
        else priv.sequence) ∧
    ((vive_headset_imu_decode_message priv report).accepted ≠ [] ↔
      ∃ n, n < 3 ∧ ¬ in_window (report.sample n).seq priv.sequence) ∧
    ((vive_headset_imu_decode_message priv report).accepted.map Accepted.slot =
      [oldest_sequence_index report.sample0.seq report.sample1.seq report.sample2.seq,
       (oldest_sequence_index report.sample0.seq report.sample1.seq report.sample2.seq + 1) % 3,
       (oldest_sequence_index report.sample0.seq report.sample1.seq report.sample2.seq + 2)
         % 3].filter
        (fun n => ¬ in_window (report.sample n).seq priv.sequence)) ∧
    (vive_headset_imu_decode_message (priv_of_sequence 10)
        (report_of_seqs 11 9 10)).accepted = [accepted_of (report_of_seqs 11 9 10) 0] ∧
    (vive_headset_imu_decode_message (priv_of_sequence 10)
        (report_of_seqs 11 9 10)).priv.sequence = 11 := by
  have hi := oldest_sequence_index_lt report.sample0.seq report.sample1.seq report.sample2.seq
  have hnil : (∀ n, n < 3 → in_window (report.sample n).seq priv.sequence) →
      resolve_spec report priv.sequence = [] := by
    intro hall
    rw [resolve_spec_eq_kept]
    simp only [kept_cons_window, kept_nil]
    rw [if_pos (hall _ hi), if_pos (hall _ (Nat.mod_lt _ (by decide))),
      if_pos (hall _ (Nat.mod_lt _ (by decide)))]
  rw [decode_priv, decode_accepted]
  refine ⟨?_, ?_, ?_, ?_, ?_, ?_, ?_, by decide, by decide⟩
  · intro e he
    simp [cursor_after, he]
  · intro he
    simp [cursor_after, he]
  · intro hall
    simp [cursor_after, hnil hall]
  · rfl
  · rw [resolve_spec_eq_kept]
    generalize oldest_sequence_index report.sample0.seq report.sample1.seq
      report.sample2.seq = i
    simp only [kept_cons_window, kept_nil]
    by_cases a0 : in_window (report.sample i).seq priv.sequence <;>
    by_cases a1 : in_window (report.sample ((i + 1) % 3)).seq priv.sequence <;>
    by_cases a2 : in_window (report.sample ((i + 2) % 3)).seq priv.sequence <;>
    simp [a0, a1, a2, cursor_after, accepted_of]
  · constructor
    · intro h
      by_contra hall
      push_neg at hall
      exact h (hnil hall)
    · rintro ⟨n, hn, hout⟩ hempty
      rw [resolve_spec_eq_kept] at hempty
      generalize oldest_sequence_index report.sample0.seq report.sample1.seq
        report.sample2.seq = i at hempty hi
      have hmem : n = i ∨ n = (i + 1) % 3 ∨ n = (i + 2) % 3 := by omega
      simp only [kept_cons_window, kept_nil] at hempty
      by_cases a0 : in_window (report.sample i).seq priv.sequence <;>
      by_cases a1 : in_window (report.sample ((i + 1) % 3)).seq priv.sequence <;>
      by_cases a2 : in_window (report.sample ((i + 2) % 3)).seq priv.sequence <;>
      simp only [a0, a1, a2, if_true, if_false, reduceCtorEq] at hempty
      rcases hmem with h | h | h
      · exact hout (h ▸ a0)
      · exact hout (h ▸ a1)
      · exact hout (h ▸ a2)
  · simp only [resolve_spec, List.map_map]
    exact List.map_id _

/-- C6 at cursor 10 and slots `[11, 9, 10]`: the last accepted sample is the
one of slot 0, numbered 11, and the cursor ends at 11, off its entry value. -/
theorem C6_cursor_is_last_accepted_witness :
    (vive_headset_imu_decode_message (priv_of_sequence 10)
        (report_of_seqs 11 9 10)).accepted.getLast? =
      some (accepted_of (report_of_seqs 11 9 10) 0) ∧
    (accepted_of (report_of_seqs 11 9 10) 0).seq = 11 ∧
    (vive_headset_imu_decode_message (priv_of_sequence 10)
        (report_of_seqs 11 9 10)).priv.sequence =
      (accepted_of (report_of_seqs 11 9 10) 0).seq ∧
    (vive_headset_imu_decode_message (priv_of_sequence 10)
        (report_of_seqs 11 9 10)).priv.sequence ≠ (priv_of_sequence 10).sequence :=
  ⟨by decide, by decide,
   (C6_cursor_is_last_accepted (priv_of_sequence 10) (report_of_seqs 11 9 10)).1
     (accepted_of (report_of_seqs 11 9 10) 0) (by decide),
   by decide⟩

/-- C10: staleness is judged against the cursor at entry: the accepted samples
are the slots `i`, `(i+1) mod 3`, `(i+2) mod 3` walked once each from
`i = oldest_sequence_index`, keeping every slot whose sequence number is not
in the window of the entry cursor; so the slots `[5, 5, 5]` entered at cursor 0
yield three accepted samples numbered 5. -/
theorem C10_staleness_judged_at_entry (priv : Priv) (report : vive_headset_imu_report) :
    (vive_headset_imu_decode_message priv report).accepted =
      resolve_spec report priv.sequence ∧
    (vive_headset_imu_decode_message (priv_of_sequence 0) (report_of_seqs 5 5 5)).accepted.map
      Accepted.seq = [5, 5, 5] ∧
    (vive_headset_imu_decode_message (priv_of_sequence 0) (report_of_seqs 5 5 5)).accepted.map
      Accepted.slot = [0, 1, 2] :=
  ⟨decode_accepted priv report, by decide, by decide⟩

/-- C5: adding `k` (mod 256) to the three slot sequence numbers and to the
entry cursor leaves the oldest index and the accepted slots, in order, as they
were (the accepted samples differ only by `k` added to their sequence numbers)
and adds `k` (mod 256) to the resulting cursor. -/
theorem C5_wraparound_invariance (priv : Priv) (report : vive_headset_imu_report) (k : Nat)
    (h0 : report.sample0.seq < 256) (h1 : report.sample1.seq < 256)
    (h2 : report.sample2.seq < 256) (hL : priv.sequence < 256) :
    oldest_sequence_index (shift_report k report).sample0.seq
        (shift_report k report).sample1.seq (shift_report k report).sample2.seq =
      oldest_sequence_index report.sample0.seq report.sample1.seq report.sample2.seq ∧
    (vive_headset_imu_decode_message { priv with sequence := (priv.sequence + k) % 256 }
        (shift_report k report)).accepted.map Accepted.slot =
      (vive_headset_imu_decode_message priv report).accepted.map Accepted.slot ∧
    (vive_headset_imu_decode_message { priv with sequence := (priv.sequence + k) % 256 }
        (shift_report k report)).accepted =
      (vive_headset_imu_decode_message priv report).accepted.map (shift_accepted k) ∧
    (vive_headset_imu_decode_message { priv with sequence := (priv.sequence + k) % 256 }
        (shift_report k report)).priv.sequence =
      ((vive_headset_imu_decode_message priv report).priv.sequence + k) % 256 := by
  have hold : oldest_sequence_index (shift_report k report).sample0.seq
        (shift_report k report).sample1.seq (shift_report k report).sample2.seq =
      oldest_sequence_index report.sample0.seq report.sample1.seq report.sample2.seq :=
    oldest_sequence_index_shift report.sample0.seq report.sample1.seq report.sample2.seq k h0 h1
  have hacc : resolve_spec (shift_report k report) ((priv.sequence + k) % 256) =
      (resolve_spec report priv.sequence).map (shift_accepted k) := by
    rw [resolve_spec_eq_kept, resolve_spec_eq_kept, hold]
    exact kept_shift k report priv.sequence (sample_seq_lt report h0 h1 h2) hL _
  refine ⟨hold, ?_, ?_, ?_⟩
  · rw [decode_accepted, decode_accepted, hacc, List.map_map]
    rfl
  · rw [decode_accepted, decode_accepted, hacc]
  · rw [decode_priv, decode_priv, hacc]
    exact cursor_after_shift k priv.sequence _

/-- C5 with `k = 254`: the report `[2, 3, 4]` entered at cursor 2 and the
report `[0, 1, 2]` entered at cursor 0 (drawn from 254, 255, 0, 1, 2) resolve
alike: slots 1 and 2 are accepted, and the cursor ends at 4 and at 2. -/
theorem C5_wraparound_invariance_witness :
    ((report_of_seqs 2 3 4).sample0.seq < 256 ∧ (report_of_seqs 2 3 4).sample1.seq < 256 ∧
      (report_of_seqs 2 3 4).sample2.seq < 256 ∧ (priv_of_sequence 2).sequence < 256) ∧
    shift_report 254 (report_of_seqs 2 3 4) = report_of_seqs 0 1 2 ∧
    (vive_headset_imu_decode_message (priv_of_sequence 0) (report_of_seqs 0 1 2)).accepted.map
        Accepted.slot =
      (vive_headset_imu_decode_message (priv_of_sequence 2) (report_of_seqs 2 3 4)).accepted.map
        Accepted.slot ∧
    (vive_headset_imu_decode_message (priv_of_sequence 0) (report_of_seqs 0 1 2)).priv.sequence =
      ((vive_headset_imu_decode_message (priv_of_sequence 2)
          (report_of_seqs 2 3 4)).priv.sequence + 254) % 256 :=
  have h := C5_wraparound_invariance (priv_of_sequence 2) (report_of_seqs 2 3 4) 254
    (by decide) (by decide) (by decide) (by decide)
  ⟨⟨by decide, by decide, by decide, by decide⟩, by decide, h.2.1, h.2.2.2⟩

/-- C3 fails as stated: entered at cursor 0, the round-robin report
`[253, 254, 255]` has its slots 1 and 2 inside the window of the cursor, so the
first run accepts only the sample numbered 253 and leaves the cursor at 253;
the second run, on the same report, then accepts the samples numbered 254 and
255. -/
theorem C3_counterexample :
    (vive_headset_imu_decode_message (priv_of_sequence 0)
        (report_of_seqs 253 254 255)).accepted.map Accepted.seq = [253] ∧
    (vive_headset_imu_decode_message (priv_of_sequence 0)
        (report_of_seqs 253 254 255)).priv.sequence = 253 ∧
    (vive_headset_imu_decode_message
        (vive_headset_imu_decode_message (priv_of_sequence 0) (report_of_seqs 253 254 255)).priv
        (report_of_seqs 253 254 255)).accepted.map Accepted.seq = [254, 255] ∧
    (vive_headset_imu_decode_message
        (vive_headset_imu_decode_message (priv_of_sequence 0) (report_of_seqs 253 254 255)).priv
        (report_of_seqs 253 254 255)).accepted ≠ [] := by
  decide

/-- C3, amended: on a report whose slots hold `s`, `s+1`, `s+2` (mod 256) in
one of the three round-robin placements, running the decoder a second time
with the cursor left by the first run accepts no sample exactly when the entry
cursor of the first run is neither `s+3` nor `s+4` (mod 256); and a run that
accepts no sample leaves the private state, the cursor included, as it was. -/
theorem C3_idempotence_on_round_robin (priv : Priv) (report : vive_headset_imu_report)
    (s : Nat) (hs : s < 256) (hL : priv.sequence < 256)
    (hr : report.seqs ∈ round_robin_placements s) :
    ((vive_headset_imu_decode_message (vive_headset_imu_decode_message priv report).priv
        report).accepted = [] ↔
      (priv.sequence ≠ (s + 3) % 256 ∧ priv.sequence ≠ (s + 4) % 256)) ∧
    ((vive_headset_imu_decode_message (vive_headset_imu_decode_message priv report).priv
        report).accepted = [] →
      (vive_headset_imu_decode_message (vive_headset_imu_decode_message priv report).priv
        report).priv = (vive_headset_imu_decode_message priv report).priv) := by
  obtain ⟨i, -, hi, -, h0, h1, h2⟩ := round_robin_walk report s hr
  constructor
  · have e0 : in_window s priv.sequence ↔
        (priv.sequence = s ∨ priv.sequence = (s + 1) % 256 ∨ priv.sequence = (s + 2) % 256) := by
      unfold in_window; omega
    have e1 : in_window ((s + 1) % 256) priv.sequence ↔
        (priv.sequence = (s + 1) % 256 ∨ priv.sequence = (s + 2) % 256 ∨
          priv.sequence = (s + 3) % 256) := by
      unfold in_window; omega
    have e2 : in_window ((s + 2) % 256) priv.sequence ↔
        (priv.sequence = (s + 2) % 256 ∨ priv.sequence = (s + 3) % 256 ∨
          priv.sequence = (s + 4) % 256) := by
      unfold in_window; omega
    have f00 : in_window s s := by unfold in_window; omega
    have f01 : in_window s ((s + 1) % 256) := by unfold in_window; omega
    have f02 : in_window s ((s + 2) % 256) := by unfold in_window; omega
    have f10 : ¬ in_window ((s + 1) % 256) s := by unfold in_window; omega
    have f11 : in_window ((s + 1) % 256) ((s + 1) % 256) := by unfold in_window; omega
    have f12 : in_window ((s + 1) % 256) ((s + 2) % 256) := by unfold in_window; omega
    have f20 : ¬ in_window ((s + 2) % 256) s := by unfold in_window; omega
    have f21 : ¬ in_window ((s + 2) % 256) ((s + 1) % 256) := by unfold in_window; omega
    have f22 : in_window ((s + 2) % 256) ((s + 2) % 256) := by unfold in_window; omega
    rw [decode_accepted, decode_priv]
    simp only [resolve_spec_eq_kept, hi, kept_cons_window, kept_nil, h0, h1, h2]
    by_cases a0 : in_window s priv.sequence <;>
    by_cases a1 : in_window ((s + 1) % 256) priv.sequence <;>
    by_cases a2 : in_window ((s + 2) % 256) priv.sequence <;>
    simp only [a0, a1, a2, if_true, if_false, cursor_after, List.getLast?_cons_cons,
      List.getLast?_singleton, List.getLast?_nil, accepted_of, h0, h1, h2,
      f00, f01, f02, f10, f11, f12, f20, f21, f22, reduceCtorEq, true_iff, false_iff] <;>
    rw [e0] at a0 <;> rw [e1] at a1 <;> rw [e2] at a2 <;>
    omega
  · intro h
    rw [decode_priv
      (vive_headset_imu_decode_message priv report).priv report, ← decode_accepted, h]
    rfl

/-- C3, amended, at cursor 10 and slots `[11, 9, 10]`: the cursor is neither
12 nor 13, and the second run accepts nothing. -/
theorem C3_idempotence_on_round_robin_witness :
    (9 < 256 ∧ (priv_of_sequence 10).sequence < 256 ∧
      (report_of_seqs 11 9 10).seqs ∈ round_robin_placements 9) ∧
    ((priv_of_sequence 10).sequence ≠ (9 + 3) % 256 ∧
      (priv_of_sequence 10).sequence ≠ (9 + 4) % 256) ∧
    (vive_headset_imu_decode_message
        (vive_headset_imu_decode_message (priv_of_sequence 10) (report_of_seqs 11 9 10)).priv
        (report_of_seqs 11 9 10)).accepted = [] :=
  ⟨⟨by decide, by decide, by decide⟩, ⟨by decide, by decide⟩,
   (C3_idempotence_on_round_robin (priv_of_sequence 10) (report_of_seqs 11 9 10) 9
      (by decide) (by decide) (by decide)).1.2 ⟨by decide, by decide⟩⟩

/-- C7: an iteration of the running loop whose read returns a count other
than 52, or whose buffer does not start with the report tag, does not reach the
decoder: no sample is accepted, the private state (cursor and calibration
vectors) is unchanged, and the loop goes on to the next iteration. When the
poll reports readiness the read is performed and the report is then dropped as
a read error or as an invalid report. -/
theorem C7_invalid_report_is_discarded (REPORT_ID : Nat) (priv : Priv) (env : Iteration)
    (rest : List Iteration) (hact : env.active = true)
    (hbad : env.read_ret ≠ 52 ∨ env.buf.getD 0 0 ≠ REPORT_ID) :
    (thread_iteration REPORT_ID priv env).outcome ≠ Outcome.decoded ∧
    (thread_iteration REPORT_ID priv env).accepted = [] ∧
    (thread_iteration REPORT_ID priv env).priv = priv ∧
    (thread_iteration REPORT_ID priv env).state = LoopState.Running ∧
    (env.poll_ret ≠ -1 → env.revents &&& POLLIN ≠ 0 →
      (thread_iteration REPORT_ID priv env).did_read = true ∧
      ((thread_iteration REPORT_ID priv env).outcome = Outcome.read_error ∨
        (thread_iteration REPORT_ID priv env).outcome = Outcome.invalid_report)) ∧
    vive_headset_imu_thread REPORT_ID priv (env :: rest) =
      vive_headset_imu_thread REPORT_ID priv rest := by
  have hmask : ¬ (POLLIN &&& (POLLERR ||| POLLHUP ||| POLLNVAL) ≠ 0) := by decide
  have hit : (thread_iteration REPORT_ID priv env).outcome ≠ Outcome.decoded ∧
      (thread_iteration REPORT_ID priv env).accepted = [] ∧
      (thread_iteration REPORT_ID priv env).priv = priv ∧
      (thread_iteration REPORT_ID priv env).state = LoopState.Running := by
    unfold thread_iteration
    simp only [hact, Bool.true_eq_false, if_false, if_neg hmask, if_pos hbad]
    split_ifs <;> simp
  refine ⟨hit.1, hit.2.1, hit.2.2.1, hit.2.2.2, ?_, ?_⟩
  · intro hp hin
    unfold thread_iteration
    simp only [hact, Bool.true_eq_false, if_false, if_neg hmask, if_pos hbad, if_neg hp,
      if_neg hin]
    split_ifs <;> simp
  · rw [vive_headset_imu_thread]
    simp only [hit.2.2.2, hit.2.2.1, hit.2.1, List.nil_append]

/-- C7 for a 40-byte report: it is read, dropped as invalid, and the cursor
and the calibration stay as they were. -/
theorem C7_invalid_report_is_discarded_witness :
    ((40 : Int) ≠ 52 ∨ (buf_of_first 0x20).getD 0 0 ≠ 0x20) ∧
    (thread_iteration 0x20 (priv_of_sequence 10)
        ⟨true, 1, POLLIN, 40, buf_of_first 0x20⟩).outcome = Outcome.invalid_report ∧
    (thread_iteration 0x20 (priv_of_sequence 10)
        ⟨true, 1, POLLIN, 40, buf_of_first 0x20⟩).accepted = [] ∧
    (thread_iteration 0x20 (priv_of_sequence 10)
        ⟨true, 1, POLLIN, 40, buf_of_first 0x20⟩).priv = priv_of_sequence 10 ∧
    (thread_iteration 0x20 (priv_of_sequence 10)
        ⟨true, 1, POLLIN, 40, buf_of_first 0x20⟩).state = LoopState.Running :=
  have h := C7_invalid_report_is_discarded 0x20 (priv_of_sequence 10)
    ⟨true, 1, POLLIN, 40, buf_of_first 0x20⟩ [] rfl (Or.inl (by decide))
  ⟨Or.inl (by decide), by decide, h.2.1, h.2.2.1, h.2.2.2.1⟩

/-- C8 on the code: the loop tests `fds.events`, which it has just set to
`POLLIN`, against `POLLERR | POLLHUP | POLLNVAL`, so the test never succeeds.
With `POLLHUP` reported by a successful poll the iteration is treated as a
timeout and the loop keeps running; with `POLLHUP | POLLIN` it goes on to read;
and no iteration of an active loop ever ends in `Stopped`. -/
theorem C8_hangup_does_not_stop_the_loop (REPORT_ID : Nat) (priv : Priv) (read_ret : Int)
    (buf : List Nat) :
    (thread_iteration REPORT_ID priv ⟨true, 1, POLLHUP, read_ret, buf⟩).state =
      LoopState.Running ∧
    (thread_iteration REPORT_ID priv ⟨true, 1, POLLHUP, read_ret, buf⟩).outcome =
      Outcome.poll_timeout ∧
    (thread_iteration REPORT_ID priv ⟨true, 1, POLLHUP ||| POLLIN, read_ret, buf⟩).state =
      LoopState.Running ∧
    (thread_iteration REPORT_ID priv ⟨true, 1, POLLHUP ||| POLLIN, read_ret, buf⟩).did_read =
      true ∧
    (∀ env : Iteration, env.active = true →
      (thread_iteration REPORT_ID priv env).state = LoopState.Running ∧
      (thread_iteration REPORT_ID priv env).outcome ≠ Outcome.hangup) := by
  have hmask : ¬ (POLLIN &&& (POLLERR ||| POLLHUP ||| POLLNVAL) ≠ 0) := by decide
  have hup : POLLHUP &&& POLLIN = 0 := by decide
  have hupin : ¬ ((POLLHUP ||| POLLIN) &&& POLLIN = 0) := by decide
  have h1 : ¬ ((1 : Int) = -1) := by decide
  refine ⟨?_, ?_, ?_, ?_, ?_⟩
  · simp only [thread_iteration, Bool.true_eq_false, if_false, if_neg hmask, if_neg h1,
      if_pos hup]
  · simp only [thread_iteration, Bool.true_eq_false, if_false, if_neg hmask, if_neg h1,
      if_pos hup]
  · simp only [thread_iteration, Bool.true_eq_false, if_false, if_neg hmask, if_neg h1,
      if_neg hupin]
    split_ifs <;> rfl
  · simp only [thread_iteration, Bool.true_eq_false, if_false, if_neg hmask, if_neg h1,
      if_neg hupin]
    split_ifs <;> rfl
  · intro env hact
    unfold thread_iteration
    simp only [hact, Bool.true_eq_false, if_false, if_neg hmask]
    split_ifs <;> simp

/-- C9 fails as stated: the configuration document parses but lacks
`gyro_scale`; `vive_headset_imu_get_config` returns 0 all the same, leaving
`gyro_scale` as it was, and `vive_headset_imu_start` returns 0 after sending
both Lighthouse reports. -/
theorem C9_counterexample :
    is_vec3_member config_without_gyro_scale "gyro_scale" = false ∧
    start_env_without_gyro_scale.config_json = some "config" ∧
    start_env_without_gyro_scale.json_from_string "config" = some config_without_gyro_scale ∧
    (vive_headset_imu_get_config start_env_without_gyro_scale.json_from_string
        json_object_get_vec3_member start_env_without_gyro_scale.config_json
        (priv_of_sequence 0)).1 = 0 ∧
    (vive_headset_imu_get_config start_env_without_gyro_scale.json_from_string
        json_object_get_vec3_member start_env_without_gyro_scale.config_json
        (priv_of_sequence 0)).2.gyro_scale = (priv_of_sequence 0).gyro_scale ∧
    (vive_headset_imu_start json_object_get_vec3_member start_env_without_gyro_scale
        (priv_of_sequence 0)).ret = 0 ∧
    (vive_headset_imu_start json_object_get_vec3_member start_env_without_gyro_scale
        (priv_of_sequence 0)).sent = [[0x04, 0, 0, 0, 0], [0x07, 0x02, 0, 0, 0]] := by
  refine ⟨by decide, rfl, ?_, ?_, ?_, ?_, ?_⟩
  · simp [start_env_without_gyro_scale]
  · decide
  · decide
  · decide
  · decide

/-- C9, amended: `vive_headset_imu_get_config` reports failure, with -1,
exactly when the configuration text cannot be fetched or does not parse; for
every text that parses it returns 0, whatever members the document has and
whatever the member reader does. When it reports failure, the device having
been opened and the firmware report read, `vive_headset_imu_start` returns
that failure and sends no Lighthouse report. -/
theorem C9_config_fails_only_on_fetch_or_parse
    (get_vec3 : Option (List (String × JsonNode)) → String → vec3 → vec3)
    (env : StartEnv) (priv : Priv) :
    ((vive_headset_imu_get_config env.json_from_string get_vec3 env.config_json priv).1 < 0 ↔
      (env.config_json = none ∨
        ∃ text, env.config_json = some text ∧ env.json_from_string text = none)) ∧
    ((vive_headset_imu_get_config env.json_from_string get_vec3 env.config_json priv).1 = 0 ∨
      (vive_headset_imu_get_config env.json_from_string get_vec3 env.config_json priv).1 = -1) ∧
    (∀ text node, env.config_json = some text → env.json_from_string text = some node →
      (vive_headset_imu_get_config env.json_from_string get_vec3 env.config_json priv).1 = 0) ∧
    ((vive_headset_imu_get_config env.json_from_string get_vec3 env.config_json priv).1 < 0 →
      ¬ (env.fd = -1 ∧ env.open_ret = -1) → 0 ≤ env.get_feature_report_ret →
      (vive_headset_imu_start get_vec3 env priv).ret = -1 ∧
      (vive_headset_imu_start get_vec3 env priv).sent = []) := by
  have hcases : (env.config_json = none ∧
        (vive_headset_imu_get_config env.json_from_string get_vec3 env.config_json priv).1 = -1) ∨
      (∃ text, env.config_json = some text ∧ env.json_from_string text = none ∧
        (vive_headset_imu_get_config env.json_from_string get_vec3 env.config_json priv).1 = -1) ∨
      (∃ text node, env.config_json = some text ∧ env.json_from_string text = some node ∧
        (vive_headset_imu_get_config env.json_from_string get_vec3 env.config_json priv).1 = 0) := by
    cases hc : env.config_json with
    | none => left; exact ⟨rfl, rfl⟩
    | some text =>
      right
      cases hp : env.json_from_string text with
      | none => left; exact ⟨text, rfl, hp, by simp [vive_headset_imu_get_config, hp]⟩
      | some node => right; exact ⟨text, node, rfl, hp, by simp [vive_headset_imu_get_config, hp]⟩
  have hstart : (vive_headset_imu_get_config env.json_from_string get_vec3 env.config_json
        priv).1 = -1 →
      ¬ (env.fd = -1 ∧ env.open_ret = -1) → 0 ≤ env.get_feature_report_ret →
      (vive_headset_imu_start get_vec3 env priv).ret = -1 ∧
      (vive_headset_imu_start get_vec3 env priv).sent = [] := by
    intro hc hopen hfw
    have hfw2 : ¬ (vive_headset_get_firmware_version env.get_feature_report_ret < 0) := by
      unfold vive_headset_get_firmware_version
      split_ifs <;> omega
    have hopen2 : ¬ (env.fd = -1 ∧ (if env.fd = -1 then env.open_ret else env.fd) = -1) := by
      intro h
      apply hopen
      refine ⟨h.1, ?_⟩
      have h2 := h.2
      rw [if_pos h.1] at h2
      exact h2
    unfold vive_headset_imu_start
    simp only [if_neg hopen2, if_neg hfw2, hc]
    simp
  rcases hcases with ⟨h1, h2⟩ | ⟨text, h1, h2, h3⟩ | ⟨text, node, h1, h2, h3⟩
  · refine ⟨?_, Or.inr h2, ?_, ?_⟩
    · rw [h2]; simp [h1]
    · intro text node ht; rw [h1] at ht; cases ht
    · intro _; exact hstart h2
  · refine ⟨?_, Or.inr h3, ?_, ?_⟩
    · rw [h3]
      simp only [Int.reduceNeg, Int.reduceLT, true_iff]
      exact Or.inr ⟨text, h1, h2⟩
    · intro text2 node ht hn
      rw [h1] at ht
      cases ht
      rw [h2] at hn
      cases hn
    · intro _; exact hstart h3
  · refine ⟨?_, Or.inl h3, ?_, ?_⟩
    · rw [h3]
      simp only [lt_self_iff_false, false_iff, not_or, not_exists, not_and]
      refine ⟨by rw [h1]; simp, ?_⟩
      intro text2 ht
      rw [h1] at ht
      cases ht
      rw [h2]
      simp
    · intro _ _ _ _; exact h3
    · intro hlt; rw [h3] at hlt; exact absurd hlt (by decide)

end Vive
